import Mathlib

/-!
Shallow embedding of the subscription execution pipeline generated by
`src/derive/src/subscription.rs` and of the warp transport adapter in
`src/integrations/warp/src/lib.rs`.

The derive source is a code generator: the definitions below embed the
runtime code it emits (the `quote!` blocks), with the external
collaborators of spec section 6 (the selection-set resolver, the guard
check outcome, the body parser, the URL decoder, frame payload
extraction) taken as parameters.  Code of the core crate that is not
under `src/` (notably `Context::param_value` and the cache-control
value) is modelled from the spec and marked as such in its doc comment.
-/

namespace AsyncGraphql

/-- Syntax position of a field in the query document (`ctx.item.pos`). -/
structure Pos where
  line : Nat
  column : Nat
deriving DecidableEq

/-- Kinds of field-level errors named by the spec, section 7. -/
inductive ErrKind where
  | missingArgument (name : String)
  | invalidArgument (name : String)
  | guardRejected (reason : String)
  | handlerFailure (message : String)
  | fieldNotFound (fieldName : String) (object : String)
  | resolveFailure (message : String)
deriving DecidableEq

/-- Positioned GraphQL error: a kind together with the originating syntax
location and the path-node ancestry, as produced by
`into_error_with_path(ctx.item.pos, ctx.path_node)` in the generated code
(`subscription.rs` lines 238-240 and 243-245).  An empty `path` models a
`None` path node (`into_error`, line 365). -/
structure GqlError where
  kind : ErrKind
  pos : Pos
  path : List String
deriving DecidableEq

/-- Minimal JSON values, enough for `serde_json::json!` objects built by the
generated per-item wrapper (`subscription.rs` lines 282-286). -/
inductive Json where
  | null : Json
  | num (n : Int) : Json
  | str (s : String) : Json
  | obj (fields : List (String × Json)) : Json

/-- Boolean success test on `Except`, embedding `Result::is_err` negated. -/
def exceptIsOk {E A : Type} : Except E A → Bool
  | Except.ok _ => true
  | Except.error _ => false

/-- Modelled from the spec: `Context::param_value` lives in the async-graphql
core crate, which is not under `src/`.  Spec section 4.2: if a value is
present, validate its shape against the declared type (here the partial
function `decode`), failing with `InvalidArgument` on mismatch; if absent,
evaluate the default-value expression; absence of both is only legal if the
argument type itself allows an absent value (`decode none` succeeds),
otherwise fail with `MissingArgument`.  Field-level errors carry the
originating syntax location and the selection path (spec section 7). -/
def param_value {Raw Val : Type} (name : String) (provided : Option Raw)
    (default : Option (Unit → Val)) (decode : Option Raw → Option Val)
    (pos : Pos) (path : List String) : Except GqlError Val :=
  match provided with
  | some r =>
    match decode (some r) with
    | some v => Except.ok v
    | none => Except.error ⟨ErrKind.invalidArgument name, pos, path⟩
  | none =>
    match default with
    | some d => Except.ok (d ())
    | none =>
      match decode none with
      | some v => Except.ok v
      | none => Except.error ⟨ErrKind.missingArgument name, pos, path⟩

/-- Declared argument of a subscription field: its GraphQL name, the optional
default-value closure (`Some(|| -> ty { default })`, `subscription.rs` lines
177-180) and the type's decoding of a provided (or absent) raw value. -/
structure ArgSpec (Raw Val : Type) where
  name : String
  default : Option (Unit → Val)
  decode : Option Raw → Option Val

/-- Binding of one declared argument: the generated
`ctx.param_value(name, default)` call (`subscription.rs` line 184), with the
request's variable mapping `vars` standing for the context lookup. -/
def bindArg {Raw Val : Type} (vars : String → Option Raw) (pos : Pos)
    (path : List String) (s : ArgSpec Raw Val) : Except GqlError Val :=
  param_value s.name (vars s.name) s.default s.decode pos path

/-- Deferred per-argument getter generated at `subscription.rs` lines 181-183:
a zero-argument closure that performs the same `ctx.param_value` call as the
initial binding. -/
def param_getter {Raw Val : Type} (vars : String → Option Raw) (pos : Pos)
    (path : List String) (s : ArgSpec Raw Val) : Unit → Except GqlError Val :=
  fun _ => bindArg vars pos path s

/-- Sequential binding of all declared arguments, embedding the generated
sequence of `let ident : ty = ctx.param_value(name, default)?;` statements
(`subscription.rs` lines 182-185): the first failing binder short-circuits. -/
def getParams {Raw Val : Type} (vars : String → Option Raw) (pos : Pos)
    (path : List String) : List (ArgSpec Raw Val) → Except GqlError (List Val)
  | [] => Except.ok []
  | s :: rest =>
    match bindArg vars pos path s with
    | Except.error e => Except.error e
    | Except.ok v =>
      match getParams vars pos path rest with
      | Except.error e => Except.error e
      | Except.ok vs => Except.ok (v :: vs)

/-- Single-key JSON object built around a resolved value:
`serde_json::json!({ field_name.as_str(): value })`
(`subscription.rs` lines 283-285). -/
def oneFieldObj (key : String) (j : Json) : Json :=
  Json.obj [(key, j)]

/-- Per-item resolution step of the `StreamExt::then` closure
(`subscription.rs` lines 262-289): resolve the raw message against the
selection set (external collaborator `OutputValueType::resolve`, spec
section 6) and on success wrap the value under the field's response key. -/
def wrapResolve {A : Type} (resolve : A → Except GqlError Json) (key : String)
    (v : A) : Except GqlError Json :=
  Except.map (oneFieldObj key) (resolve v)

/-- Error latch, embedding the `StreamExt::scan` at `subscription.rs` lines
290-302: with the `errored` flag set the scan returns `None` and the stream
ends; otherwise the item is emitted and the flag becomes true exactly when
the item is an error. -/
def scanLatch {E A : Type} : Bool → List (Except E A) → List (Except E A)
  | _, [] => []
  | true, _ :: _ => []
  | false, item :: rest => item :: scanLatch (!(exceptIsOk item)) rest

/-- Outcome of a pre-guard check (`field.guard`), when one is declared:
`none` means no guard, `some (Except.ok ())` a passing check and
`some (Except.error r)` a rejection with reason `r`
(`subscription.rs` lines 243-245). -/
def guardPasses : Option (Except String Unit) → Bool
  | some (Except.error _) => false
  | _ => true

/-- Observable trace of one evaluation of the generated `stream_fn` body:
its returned result, how many times the handler was invoked (equivalently,
how many raw sequences were created) and, when it was invoked, the bound
argument values passed to it positionally. -/
structure FnTrace (Val : Type) where
  result : Except GqlError (List (Except GqlError Json))
  handlerCalls : Nat
  handlerParams : Option (List Val)

/-- Embedding of the generated `stream_fn` block (`subscription.rs` lines
253-303): bind arguments, run the guard, invoke the handler (whose own error
is positioned by `into_error_with_path`, lines 236-241), then map each raw
item through per-item resolution and apply the error latch. -/
def stream_fn {Raw Val A : Type} (vars : String → Option Raw)
    (specs : List (ArgSpec Raw Val)) (guard : Option (Except String Unit))
    (pos : Pos) (path : List String) (key : String)
    (handler : List Val → Except String (List A))
    (resolve : A → Except GqlError Json) : FnTrace Val :=
  match getParams vars pos path specs with
  | Except.error e => ⟨Except.error e, 0, none⟩
  | Except.ok ps =>
    match guard with
    | some (Except.error reason) =>
      ⟨Except.error ⟨ErrKind.guardRejected reason, pos, path⟩, 0, none⟩
    | _ =>
      match handler ps with
      | Except.error msg =>
        ⟨Except.error ⟨ErrKind.handlerFailure msg, pos, path⟩, 1, some ps⟩
      | Except.ok raw =>
        ⟨Except.ok (scanLatch false (raw.map (wrapResolve resolve key))), 1, some ps⟩

/-- Embedding of `TryStreamExt::try_flatten` applied to
`stream::once(stream_fn)` (`subscription.rs` lines 307-311): an erroring
`stream_fn` yields the single error item, a successful one yields its
inner stream. -/
def tryFlattenOnce {E J : Type} : Except E (List (Except E J)) → List (Except E J)
  | Except.error e => [Except.error e]
  | Except.ok s => s

/-- Externally observable result stream of one subscription operation. -/
def fieldStream {Val : Type} (t : FnTrace Val) : List (Except GqlError Json) :=
  tryFlattenOnce t.result

/-- One registered subscription field as seen by the dispatcher: its
camel-cased GraphQL name and the result of its `stream_fn`. -/
structure FieldImpl where
  name : String
  fn : Except GqlError (List (Except GqlError Json))

/-- Embedding of the generated `create_field_stream` body
(`subscription.rs` lines 305-313 and 356-367): the selection's field name is
compared to each registered field name as a literal string, in registration
order; on a miss the fallback emits one `FieldNotFound` error carrying the
requested field name and the subscription type's name, positioned at the
operation's syntax location with no path node. -/
def create_field_stream (typeName : String) (pos : Pos)
    (fields : List FieldImpl) (selName : String) : List (Except GqlError Json) :=
  match fields.find? (fun f => f.name == selName) with
  | some f => tryFlattenOnce f.fn
  | none =>
    [Except.error ⟨ErrKind.fieldNotFound selName typeName, pos, []⟩]

/-- HTTP request methods as distinguished by `hyper::Method`. -/
inductive Method where
  | GET | POST | PUT | DELETE | HEAD | OPTIONS | PATCH | TRACE | CONNECT
deriving DecidableEq

/-- Transport-level rejection wrapping a parse failure
(`async_graphql_warp::BadRequest`, `lib.rs` lines 21-32). -/
structure BadRequest where
  message : String
deriving DecidableEq

/-- Embedding of the request-building closure of `graphql_opts`
(`lib.rs` lines 112-136): a GET request decodes the raw query string with
the URL-encoded-form decoder, any other method hands the body and the
content-type header to the external body parser; either failure is mapped
to a `BadRequest` rejection.  The decoders are the external collaborators
of spec section 6. -/
def graphql_opts {Req Body : Type} (urldecode : String → Except String Req)
    (receive_body : Option String → Body → Except String Req)
    (method : Method) (query : String) (contentType : Option String)
    (body : Body) : Except BadRequest Req :=
  if method = Method.GET then
    Except.mapError BadRequest.mk (urldecode query)
  else
    Except.mapError BadRequest.mk (receive_body contentType body)

/-- HTTP reply carrying a header list and a body, the observable part of a
`warp::reply::Response`. -/
structure Reply where
  headers : List (String × String)
  body : String
deriving DecidableEq

/-- Header insertion as performed by `HeaderMap::insert`: the new pair
replaces any previous value recorded under the same name. -/
def insertHeader (hs : List (String × String)) (name value : String) :
    List (String × String) :=
  (name, value) :: hs.filter (fun p => !(p.1 == name))

/-- Embedding of `warp::reply::with_header`. -/
def with_header (r : Reply) (name value : String) : Reply :=
  ⟨insertHeader r.headers name value, r.body⟩

/-- Header lookup on a reply. -/
def getHeader (r : Reply) (name : String) : Option String :=
  Option.map (fun p => p.2) (r.headers.find? (fun p => p.1 == name))

/-- Embedding of the final `.map` of `graphql_subscription_with_data`
(`lib.rs` line 225): every reply produced by the upgrade filter is passed
through `with_header(reply, "Sec-WebSocket-Protocol", "graphql-ws")`. -/
def graphql_subscription_reply (upgradeReply : Reply) : Reply :=
  with_header upgradeReply "Sec-WebSocket-Protocol" "graphql-ws"

/-- Decimal digit character for `d % 10`-style digits; any argument of ten
or more renders the last explicit digit, which is never reached for real
digits. -/
def digitChar (d : Nat) : Char :=
  match d with
  | 0 => '0'
  | 1 => '1'
  | 2 => '2'
  | 3 => '3'
  | 4 => '4'
  | 5 => '5'
  | 6 => '6'
  | 7 => '7'
  | 8 => '8'
  | _ => '9'

/-- Least-significant-first decimal digits of a natural number. -/
def digitsRev : Nat → List Nat
  | 0 => []
  | n + 1 => (n + 1) % 10 :: digitsRev ((n + 1) / 10)
decreasing_by exact Nat.div_lt_self (Nat.succ_pos n) (by omega)

/-- Decimal rendering of a natural number. -/
def renderNat (n : Nat) : String :=
  String.mk ((digitsRev n).reverse.map digitChar)

/-- Modelled from the spec: `CacheControl::value` lives in the async-graphql
core crate, which is not under `src/`.  The merged cache-control policy
yields a value exactly when it specifies a positive max-age, rendered as a
`max-age=` directive (spec sections 4.8 and 8). -/
structure CacheControl where
  maxAge : Nat
deriving DecidableEq

/-- Modelled from the spec: the optional aggregate cache-control value of a
completed response (`resp.cache_control.value()`). -/
def cacheControlValue (cc : CacheControl) : Option String :=
  if cc.maxAge > 0 then some ("max-age=" ++ renderNat cc.maxAge) else none

/-- Validity of one byte of an HTTP header value as checked by
`HeaderValue::from_str`: horizontal tab or a visible byte that is not
DEL. -/
def validHeaderChar (c : Char) : Bool :=
  c.toNat == 9 || (32 ≤ c.toNat && c.toNat ≠ 127)

/-- Embedding of `str::parse::<HeaderValue>` as used at `lib.rs` line 240. -/
def validHeaderValue (s : String) : Bool :=
  s.data.all validHeaderChar

/-- Completed execution result as seen by the response builder: its error
list (the result is ok when no error is present) and its merged
cache-control policy. -/
structure ExecResponse where
  errors : List GqlError
  cacheControl : CacheControl

/-- Embedding of `Response::is_ok` from the core crate: the result is free
of errors. -/
def respIsOk (r : ExecResponse) : Bool :=
  r.errors.isEmpty

/-- Embedding of `add_cache_control` (`lib.rs` lines 237-245): only an
error-free result whose cache-control policy yields a value that parses as
a header value gains a `cache-control` header. -/
def add_cache_control (httpResp : Reply) (resp : ExecResponse) : Reply :=
  if respIsOk resp then
    match cacheControlValue resp.cacheControl with
    | some cc =>
      if validHeaderValue cc then with_header httpResp "cache-control" cc
      else httpResp
    | none => httpResp
  else httpResp

/-- Embedding of `GQLResponse::into_response` (`lib.rs` lines 247-258): the
serialized JSON body is given a `content-type: application/json` header and
then passed through `add_cache_control`. -/
def into_response (serialize : ExecResponse → String) (resp : ExecResponse) :
    Reply :=
  add_cache_control
    (with_header ⟨[], serialize resp⟩ "content-type" "application/json") resp

/-- Embedding of `Result::unwrap` applied to an inbound frame: `none`
models the panic on a malformed frame. -/
def unwrapResult {E A : Type} : Except E A → Option A
  | Except.ok a => some a
  | Except.error _ => none

/-- Unwrapping every frame of a list, propagating a panic as `none`. -/
def mapUnwrap {E A : Type} : List (Except E A) → Option (List A)
  | [] => some []
  | m :: rest =>
    match unwrapResult m with
    | none => none
    | some a =>
      match mapUnwrap rest with
      | none => none
      | some l => some (a :: l)

/-- Embedding of the inbound WebSocket pipeline of
`graphql_subscription_with_data` (`lib.rs` lines 211-214):
`take_while(|msg| msg.is_ok()).map(Result::unwrap)` followed by payload
extraction (`ws::Message::into_bytes`, taken as a parameter). -/
def inboundPipeline {FrameErr Frame Bytes : Type} (intoBytes : Frame → Bytes)
    (msgs : List (Except FrameErr Frame)) : Option (List Bytes) :=
  Option.map (List.map intoBytes) (mapUnwrap (msgs.takeWhile exceptIsOk))

/-- Values of the longest error-free front of a frame list: the reference
description of what the pipeline should forward. -/
def okFront {E A : Type} : List (Except E A) → List A
  | [] => []
  | Except.ok a :: rest => a :: okFront rest
  | Except.error _ :: _ => []

/-- Concrete resolution error used by the C1 witness. -/
def w1err : GqlError :=
  ⟨ErrKind.resolveFailure "resolve failed", ⟨3, 5⟩, ["messages"]⟩

/-- Concrete per-item resolver for the C1 witness: items below two resolve,
item two fails. -/
def w1resolve (v : Nat) : Except GqlError Json :=
  if v < 2 then Except.ok (Json.num (Int.ofNat v)) else Except.error w1err

/-- Concrete handler for the C1 witness: a five-item raw sequence. -/
def w1handler (_ : List Nat) : Except String (List Nat) :=
  Except.ok [0, 1, 2, 7, 9]

/-- Concrete variable lookup for the C1 witness. -/
def w1vars (_ : String) : Option Nat :=
  none

/-- Concrete position for the C1 witness. -/
def w1pos : Pos :=
  ⟨3, 5⟩

/-- Concrete always-succeeding resolver for the C2 witness. -/
def w2resolve (v : Nat) : Except GqlError Json :=
  Except.ok (Json.num (Int.ofNat v))

/-- Concrete handler for the C2 witness. -/
def w2handler (_ : List Nat) : Except String (List Nat) :=
  Except.ok [4, 5, 6]

/-- Concrete variable lookup for the C2 witness. -/
def w2vars (_ : String) : Option Nat :=
  none

/-- Concrete variable lookup for the C3 witness. -/
def w3vars (_ : String) : Option Nat :=
  none

/-- Concrete handler for the C3 witness. -/
def w3handler (_ : List Nat) : Except String (List Nat) :=
  Except.ok [1]

/-- Concrete resolver for the C3 witness. -/
def w3resolve (_ : Nat) : Except GqlError Json :=
  Except.ok Json.null

/-- Concrete position for the C3 witness. -/
def w3pos : Pos :=
  ⟨7, 2⟩

/-- Concrete variable lookup for the C4 witness: only `a` is provided. -/
def w4vars (n : String) : Option Nat :=
  if n = "a" then some 5 else none

/-- Concrete provided argument for the C4 witness. -/
def w4argA : ArgSpec Nat Nat :=
  ⟨"a", none, fun r => r⟩

/-- Concrete required argument without default for the C4 witness: its type
does not allow absence. -/
def w4argB : ArgSpec Nat Nat :=
  ⟨"b", none, fun r => r⟩

/-- Concrete argument with a declared default for the C4 witness. -/
def w4argBd : ArgSpec Nat Nat :=
  ⟨"b", some (fun _ => 42), fun r => r⟩

/-- Concrete handler for the C4 witness. -/
def w4handler (_ : List Nat) : Except String (List Nat) :=
  Except.ok []

/-- Concrete resolver for the C4 witness. -/
def w4resolve (_ : Nat) : Except GqlError Json :=
  Except.ok Json.null

/-- Concrete position for the C4 witness. -/
def w4pos : Pos :=
  ⟨2, 9⟩

/-- Concrete registered field list for the C5 witness. -/
def w5fields : List FieldImpl :=
  [⟨"newMessages", Except.ok []⟩]

/-- Concrete position for the C5 witness. -/
def w5pos : Pos :=
  ⟨1, 4⟩

/-- Concrete URL-encoded-form decoder for the C6 witness. -/
def w6decode (q : String) : Except String Nat :=
  if q = "query=ok" then Except.ok 1 else Except.error "bad query"

/-- Concrete body parser for the C6 witness. -/
def w6body (_ : Option String) (b : String) : Except String Nat :=
  if b = "ok" then Except.ok 2 else Except.error "bad body"

end AsyncGraphql

namespace AsyncGraphql

/-- Mapping the success value of an `Except` does not change whether it is a
success. -/
theorem exceptIsOk_map {E A B : Type} (f : A → B) (x : Except E A) :
    exceptIsOk (Except.map f x) = exceptIsOk x := by
  cases x <;> rfl

/-- With the latch set the scan emits nothing. -/
theorem scanLatch_latched {E A : Type} (l : List (Except E A)) :
    scanLatch true l = [] := by
  cases l <;> rfl

/-- The latch passes an all-success list through unchanged. -/
theorem scanLatch_all_ok {E A : Type} :
    ∀ l : List (Except E A), l.all exceptIsOk = true → scanLatch false l = l := by
  intro l
  induction l with
  | nil => intro _; rfl
  | cons a l ih =>
    intro h
    rw [List.all_cons, Bool.and_eq_true] at h
    obtain ⟨ha, hl⟩ := h
    show a :: scanLatch (!(exceptIsOk a)) l = a :: l
    rw [ha, Bool.not_true, ih hl]

/-- The latch truncates at the first error: successes before it pass
through, the error is emitted, everything after it is suppressed. -/
theorem scanLatch_ok_then_error {E A : Type} :
    ∀ front : List (Except E A), front.all exceptIsOk = true →
      ∀ (e : E) (rest : List (Except E A)),
        scanLatch false (front ++ Except.error e :: rest)
          = front ++ [Except.error e] := by
  intro front
  induction front with
  | nil =>
    intro _ e rest
    show Except.error e :: scanLatch (!(exceptIsOk (Except.error e))) rest = _
    rw [show exceptIsOk (Except.error e : Except E A) = false from rfl,
      Bool.not_false, scanLatch_latched]
    rfl
  | cons a front ih =>
    intro h e rest
    rw [List.all_cons, Bool.and_eq_true] at h
    obtain ⟨ha, hf⟩ := h
    show a :: scanLatch (!(exceptIsOk a)) (front ++ Except.error e :: rest) = _
    rw [ha, Bool.not_true, ih hf e rest]
    rfl

/-- Wrapping the per-item resolution under the response key does not change
which items are successes. -/
theorem map_wrapResolve_all_ok {A : Type} (resolve : A → Except GqlError Json)
    (key : String) (l : List A)
    (hall : l.all (fun v => exceptIsOk (resolve v)) = true) :
    (l.map (wrapResolve resolve key)).all exceptIsOk = true := by
  rw [List.all_eq_true]
  intro x hx
  rw [List.mem_map] at hx
  obtain ⟨v, hv, rfl⟩ := hx
  have hv' := List.all_eq_true.mp hall v hv
  simpa [wrapResolve, exceptIsOk_map] using hv'

/-- C1: for every subscription whose per-item resolution succeeds on the
items before item k and fails on item k, the observable result stream is
exactly the k-1 wrapped successes in order followed by that one error; it
then completes, with no item of the remaining raw sequence ever emitted. -/
theorem subscription_error_latch_truncates_stream {Raw Val A : Type}
    (vars : String → Option Raw) (specs : List (ArgSpec Raw Val))
    (guard : Option (Except String Unit)) (pos : Pos) (path : List String)
    (key : String) (handler : List Val → Except String (List A))
    (resolve : A → Except GqlError Json) (ps : List Val)
    (front : List A) (vk : A) (rest : List A) (e : GqlError)
    (hparams : getParams vars pos path specs = Except.ok ps)
    (hguard : guardPasses guard = true)
    (hhandler : handler ps = Except.ok (front ++ vk :: rest))
    (hfront : front.all (fun v => exceptIsOk (resolve v)) = true)
    (hk : resolve vk = Except.error e) :
    fieldStream (stream_fn vars specs guard pos path key handler resolve)
      = front.map (wrapResolve resolve key) ++ [Except.error e]
    ∧ (fieldStream (stream_fn vars specs guard pos path key handler resolve)).length
      = front.length + 1 := by
  have hfin :
      scanLatch false
          (List.map (wrapResolve resolve key) (front ++ vk :: rest))
        = List.map (wrapResolve resolve key) front ++ [Except.error e] := by
    rw [List.map_append, List.map_cons]
    have hwk : wrapResolve resolve key vk = Except.error e := by
      simp [wrapResolve, hk, Except.map]
    rw [hwk]
    exact scanLatch_ok_then_error _
      (map_wrapResolve_all_ok resolve key front hfront) e _
  have hmain :
      fieldStream (stream_fn vars specs guard pos path key handler resolve)
        = front.map (wrapResolve resolve key) ++ [Except.error e] := by
    simp only [stream_fn, hparams]
    cases guard with
    | none => simp only [hhandler, fieldStream, tryFlattenOnce, hfin]
    | some g =>
      cases g with
      | ok u => simp only [hhandler, fieldStream, tryFlattenOnce, hfin]
      | error r => simp [guardPasses] at hguard
  refine ⟨hmain, ?_⟩
  rw [hmain]
  simp

/-- C1 witness: a concrete subscription with raw sequence 0,1,2,7,9 whose
resolver fails at item 2 emits exactly the two wrapped successes followed
by the one error. -/
theorem subscription_error_latch_truncates_stream_witness :
    getParams w1vars w1pos ["messages"] ([] : List (ArgSpec Nat Nat))
        = Except.ok []
    ∧ guardPasses none = true
    ∧ w1handler [] = Except.ok ([0, 1] ++ 2 :: [7, 9])
    ∧ [0, 1].all (fun v => exceptIsOk (w1resolve v)) = true
    ∧ w1resolve 2 = Except.error w1err
    ∧ fieldStream
        (stream_fn w1vars [] none w1pos ["messages"] "messages" w1handler
          w1resolve)
        = [0, 1].map (wrapResolve w1resolve "messages")
            ++ [Except.error w1err] :=
  ⟨rfl, rfl, rfl, by decide, rfl,
    (subscription_error_latch_truncates_stream w1vars [] none w1pos
      ["messages"] "messages" w1handler w1resolve [] [0, 1] 2 [7, 9] w1err
      rfl rfl rfl (by decide) rfl).1⟩

/-- C2: for every subscription whose raw sequence never fails resolution,
the observable result stream is exactly the wrapped successes, one per raw
item, in order. -/
theorem subscription_success_stream_wraps_all_items {Raw Val A : Type}
    (vars : String → Option Raw) (specs : List (ArgSpec Raw Val))
    (guard : Option (Except String Unit)) (pos : Pos) (path : List String)
    (key : String) (handler : List Val → Except String (List A))
    (resolve : A → Except GqlError Json) (ps : List Val) (raw : List A)
    (hparams : getParams vars pos path specs = Except.ok ps)
    (hguard : guardPasses guard = true)
    (hhandler : handler ps = Except.ok raw)
    (hall : raw.all (fun v => exceptIsOk (resolve v)) = true) :
    fieldStream (stream_fn vars specs guard pos path key handler resolve)
      = raw.map (wrapResolve resolve key)
    ∧ (fieldStream (stream_fn vars specs guard pos path key handler
        resolve)).all exceptIsOk = true
    ∧ (fieldStream (stream_fn vars specs guard pos path key handler
        resolve)).length = raw.length := by
  have hok : (raw.map (wrapResolve resolve key)).all exceptIsOk = true :=
    map_wrapResolve_all_ok resolve key raw hall
  have hfin :
      scanLatch false (List.map (wrapResolve resolve key) raw)
        = List.map (wrapResolve resolve key) raw :=
    scanLatch_all_ok _ hok
  have hmain :
      fieldStream (stream_fn vars specs guard pos path key handler resolve)
        = raw.map (wrapResolve resolve key) := by
    simp only [stream_fn, hparams]
    cases guard with
    | none => simp only [hhandler, fieldStream, tryFlattenOnce, hfin]
    | some g =>
      cases g with
      | ok u => simp only [hhandler, fieldStream, tryFlattenOnce, hfin]
      | error r => simp [guardPasses] at hguard
  refine ⟨hmain, ?_, ?_⟩
  · rw [hmain]
    exact hok
  · rw [hmain]
    simp

/-- C2 witness: a concrete subscription with raw sequence 4,5,6 and an
always-succeeding resolver emits exactly the three wrapped successes. -/
theorem subscription_success_stream_wraps_all_items_witness :
    getParams w2vars w1pos ["messages"] ([] : List (ArgSpec Nat Nat))
        = Except.ok []
    ∧ guardPasses none = true
    ∧ w2handler [] = Except.ok [4, 5, 6]
    ∧ [4, 5, 6].all (fun v => exceptIsOk (w2resolve v)) = true
    ∧ fieldStream
        (stream_fn w2vars [] none w1pos ["messages"] "messages" w2handler
          w2resolve)
        = [4, 5, 6].map (wrapResolve w2resolve "messages") :=
  ⟨rfl, rfl, rfl, by decide,
    (subscription_success_stream_wraps_all_items w2vars [] none w1pos
      ["messages"] "messages" w2handler w2resolve [] [4, 5, 6]
      rfl rfl rfl (by decide)).1⟩

/-- C3: when the arguments bind but the guard check fails, the operation
yields the single positioned guard error, carrying the field's location and
path-node ancestry, and the handler is never invoked: no raw sequence is
ever created. -/
theorem guard_rejection_single_error_no_handler {Raw Val A : Type}
    (vars : String → Option Raw) (specs : List (ArgSpec Raw Val))
    (reason : String) (pos : Pos) (path : List String) (key : String)
    (handler : List Val → Except String (List A))
    (resolve : A → Except GqlError Json) (ps : List Val)
    (hparams : getParams vars pos path specs = Except.ok ps) :
    fieldStream (stream_fn vars specs (some (Except.error reason)) pos path
        key handler resolve)
      = [Except.error ⟨ErrKind.guardRejected reason, pos, path⟩]
    ∧ (stream_fn vars specs (some (Except.error reason)) pos path key
        handler resolve).handlerCalls = 0
    ∧ (stream_fn vars specs (some (Except.error reason)) pos path key
        handler resolve).handlerParams = none := by
  refine ⟨?_, ?_, ?_⟩ <;>
    simp only [stream_fn, hparams, fieldStream, tryFlattenOnce]

/-- C3 witness: a concrete rejected guard produces the single positioned
error and zero handler invocations. -/
theorem guard_rejection_single_error_no_handler_witness :
    getParams w3vars w3pos ["chat"] ([] : List (ArgSpec Nat Nat))
        = Except.ok []
    ∧ fieldStream (stream_fn w3vars [] (some (Except.error "denied")) w3pos
        ["chat"] "chat" w3handler w3resolve)
        = [Except.error ⟨ErrKind.guardRejected "denied", w3pos, ["chat"]⟩]
    ∧ (stream_fn w3vars [] (some (Except.error "denied")) w3pos ["chat"]
        "chat" w3handler w3resolve).handlerCalls = 0 :=
  ⟨rfl,
    (guard_rejection_single_error_no_handler w3vars [] "denied" w3pos
      ["chat"] "chat" w3handler w3resolve [] rfl).1,
    (guard_rejection_single_error_no_handler w3vars [] "denied" w3pos
      ["chat"] "chat" w3handler w3resolve [] rfl).2.1⟩

/-- C5: when the selected field name matches no registered subscription
field under literal string comparison, the dispatcher returns the stream
holding exactly one FieldNotFound error that carries the requested field
name and the subscription type's name, positioned at the operation's syntax
location, and nothing else. -/
theorem unknown_field_yields_field_not_found (typeName : String) (pos : Pos)
    (fields : List FieldImpl) (selName : String)
    (h : ∀ f ∈ fields, f.name ≠ selName) :
    create_field_stream typeName pos fields selName
      = [Except.error ⟨ErrKind.fieldNotFound selName typeName, pos, []⟩] := by
  have hfind : fields.find? (fun f => f.name == selName) = none := by
    rw [List.find?_eq_none]
    intro f hf
    simp [h f hf]
  simp [create_field_stream, hfind]

/-- C5 witness: a selection differing from the only registered field name
solely in letter case misses the registry and yields the FieldNotFound
stream. -/
theorem unknown_field_yields_field_not_found_witness :
    (∀ f ∈ w5fields, f.name ≠ "newmessages")
    ∧ create_field_stream "SubscriptionRoot" w5pos w5fields "newmessages"
        = [Except.error
            ⟨ErrKind.fieldNotFound "newmessages" "SubscriptionRoot", w5pos,
              []⟩] :=
  ⟨by decide,
    unknown_field_yields_field_not_found "SubscriptionRoot" w5pos w5fields
      "newmessages" (by decide)⟩

/-- C9: the deferred per-argument getter is a zero-argument function whose
every evaluation returns exactly the value (or error) of the initial
binding: any number of evaluations yields that many copies of the initial
binding result. -/
theorem param_getter_idempotent_rebind_free {Raw Val : Type}
    (vars : String → Option Raw) (pos : Pos) (path : List String)
    (s : ArgSpec Raw Val) (n : Nat) :
    ((List.range n).map (fun _ => param_getter vars pos path s ()))
        = List.replicate n (bindArg vars pos path s)
    ∧ param_getter vars pos path s () = bindArg vars pos path s := by
  constructor
  · show (List.range n).map (fun _ => bindArg vars pos path s) = _
    rw [List.map_const', List.length_range]
  · rfl

/-- Binding a concatenation of argument lists first binds the left part;
when that succeeds the outcome is the outcome of the right part with the
left values in front. -/
theorem getParams_append {Raw Val : Type} (vars : String → Option Raw)
    (pos : Pos) (path : List String) :
    ∀ (A : List (ArgSpec Raw Val)) (va : List Val)
      (B : List (ArgSpec Raw Val)),
      getParams vars pos path A = Except.ok va →
      getParams vars pos path (A ++ B)
        = Except.map (fun vb => va ++ vb) (getParams vars pos path B) := by
  intro A
  induction A with
  | nil =>
    intro va B h
    have hva : va = [] := by
      simpa [getParams] using h.symm
    subst hva
    cases hB : getParams vars pos path B with
    | ok vb => simp [hB, Except.map]
    | error e => simp [hB, Except.map]
  | cons s A ih =>
    intro va B h
    cases hb : bindArg vars pos path s with
    | error e => simp [getParams, hb] at h
    | ok v =>
      cases hA : getParams vars pos path A with
      | error e => simp [getParams, hb, hA] at h
      | ok vs =>
        have hva : va = v :: vs := by
          simp [getParams, hb, hA] at h
          exact h.symm
        subst hva
        have hAB := ih vs B hA
        cases hB : getParams vars pos path B with
        | error e =>
          rw [hB] at hAB
          simp [Except.map] at hAB
          simp [getParams, hb, hAB, hB, Except.map]
        | ok vb =>
          rw [hB] at hAB
          simp [Except.map] at hAB
          simp [getParams, hb, hAB, hB, Except.map]

/-- A failing binder in the middle of the declaration list makes the whole
binding fail with that binder's error, provided the ones before it
succeed. -/
theorem getParams_middle_error {Raw Val : Type} (vars : String → Option Raw)
    (pos : Pos) (path : List String) (A : List (ArgSpec Raw Val))
    (va : List Val) (s : ArgSpec Raw Val) (B : List (ArgSpec Raw Val))
    (err : GqlError) (hA : getParams vars pos path A = Except.ok va)
    (hs : bindArg vars pos path s = Except.error err) :
    getParams vars pos path (A ++ s :: B) = Except.error err := by
  rw [getParams_append vars pos path A va (s :: B) hA]
  simp [getParams, hs, Except.map]

/-- A succeeding binder in the middle of the declaration list contributes
its value at its own position. -/
theorem getParams_middle_ok {Raw Val : Type} (vars : String → Option Raw)
    (pos : Pos) (path : List String) (A : List (ArgSpec Raw Val))
    (va : List Val) (s : ArgSpec Raw Val) (v : Val)
    (B : List (ArgSpec Raw Val)) (vb : List Val)
    (hA : getParams vars pos path A = Except.ok va)
    (hs : bindArg vars pos path s = Except.ok v)
    (hB : getParams vars pos path B = Except.ok vb) :
    getParams vars pos path (A ++ s :: B) = Except.ok (va ++ v :: vb) := by
  rw [getParams_append vars pos path A va (s :: B) hA]
  simp [getParams, hs, hB, Except.map]

/-- C4: a declared argument with no provided value, no default and a type
that does not allow absence fails binding with MissingArgument before the
handler is ever invoked; a declared default suppresses the failure and its
evaluated value is passed to the handler at that argument's position. -/
theorem argument_binding_missing_and_default {Raw Val A : Type} :
    (∀ (vars : String → Option Raw) (pos : Pos) (path : List String)
        (front : List (ArgSpec Raw Val)) (pvals : List Val)
        (s : ArgSpec Raw Val) (post : List (ArgSpec Raw Val))
        (guard : Option (Except String Unit)) (key : String)
        (handler : List Val → Except String (List A))
        (resolve : A → Except GqlError Json),
      getParams vars pos path front = Except.ok pvals →
      vars s.name = none → s.default = none → s.decode none = none →
      stream_fn vars (front ++ s :: post) guard pos path key handler resolve
          = ⟨Except.error ⟨ErrKind.missingArgument s.name, pos, path⟩, 0,
              none⟩
        ∧ fieldStream (stream_fn vars (front ++ s :: post) guard pos path
            key handler resolve)
          = [Except.error ⟨ErrKind.missingArgument s.name, pos, path⟩])
    ∧ (∀ (vars : String → Option Raw) (pos : Pos) (path : List String)
        (front : List (ArgSpec Raw Val)) (pvals : List Val)
        (s : ArgSpec Raw Val) (post : List (ArgSpec Raw Val))
        (qvals : List Val) (d : Unit → Val)
        (guard : Option (Except String Unit)) (key : String)
        (handler : List Val → Except String (List A))
        (resolve : A → Except GqlError Json),
      getParams vars pos path front = Except.ok pvals →
      getParams vars pos path post = Except.ok qvals →
      vars s.name = none → s.default = some d →
      guardPasses guard = true →
      (stream_fn vars (front ++ s :: post) guard pos path key handler
          resolve).handlerParams = some (pvals ++ d () :: qvals)
        ∧ (stream_fn vars (front ++ s :: post) guard pos path key handler
            resolve).handlerCalls = 1) := by
  constructor
  · intro vars pos path front pvals s post guard key handler resolve
      hfront hlookup hdef hdec
    have hbs : bindArg vars pos path s
        = Except.error ⟨ErrKind.missingArgument s.name, pos, path⟩ := by
      simp [bindArg, param_value, hlookup, hdef, hdec]
    have hgp := getParams_middle_error vars pos path front pvals s post _
      hfront hbs
    constructor
    · simp only [stream_fn, hgp]
    · simp only [stream_fn, hgp, fieldStream, tryFlattenOnce]
  · intro vars pos path front pvals s post qvals d guard key handler resolve
      hfront hpost hlookup hdef hguard
    have hbs : bindArg vars pos path s = Except.ok (d ()) := by
      simp [bindArg, param_value, hlookup, hdef]
    have hgp := getParams_middle_ok vars pos path front pvals s (d ()) post
      qvals hfront hbs hpost
    simp only [stream_fn, hgp]
    cases guard with
    | none =>
      cases hh : handler (pvals ++ d () :: qvals) with
      | error msg => exact ⟨rfl, rfl⟩
      | ok raw => exact ⟨rfl, rfl⟩
    | some g =>
      cases g with
      | ok u =>
        cases hh : handler (pvals ++ d () :: qvals) with
        | error msg => exact ⟨rfl, rfl⟩
        | ok raw => exact ⟨rfl, rfl⟩
      | error r => simp [guardPasses] at hguard

/-- C4 witness: with `a` provided and `b` absent, omitting the default on
`b` fails the binding with MissingArgument and never calls the handler,
while declaring a default of forty-two passes that value to the handler in
position one. -/
theorem argument_binding_missing_and_default_witness :
    (getParams w4vars w4pos ["sub"] [w4argA] = Except.ok [5]
      ∧ w4vars "b" = none
      ∧ stream_fn w4vars ([w4argA] ++ w4argB :: [w4argA]) none w4pos ["sub"]
          "sub" w4handler w4resolve
        = ⟨Except.error ⟨ErrKind.missingArgument "b", w4pos, ["sub"]⟩, 0,
            none⟩)
    ∧ ((stream_fn w4vars ([w4argA] ++ w4argBd :: [w4argA]) none w4pos
          ["sub"] "sub" w4handler w4resolve).handlerParams
        = some ([5] ++ 42 :: [5])
      ∧ (stream_fn w4vars ([w4argA] ++ w4argBd :: [w4argA]) none w4pos
          ["sub"] "sub" w4handler w4resolve).handlerCalls = 1) :=
  ⟨⟨rfl, rfl,
    (argument_binding_missing_and_default.1 w4vars w4pos ["sub"] [w4argA]
      [5] w4argB [w4argA] none "sub" w4handler w4resolve rfl rfl rfl
      rfl).1⟩,
    argument_binding_missing_and_default.2 w4vars w4pos ["sub"] [w4argA] [5]
      w4argBd [w4argA] [5] (fun _ => 42) none "sub" w4handler w4resolve
      rfl rfl rfl rfl rfl⟩

/-- C6: the HTTP filter applies exactly one binary branch on the method: a
GET request is built from the URL-encoded query string (a decode failure
becoming BadRequest), any other method is built from the body under the
content-type header (a parse failure becoming BadRequest), and the query
string never influences a non-GET request. -/
theorem http_dispatch_binary_branch {Req Body : Type}
    (urldecode : String → Except String Req)
    (receive_body : Option String → Body → Except String Req)
    (method : Method) (query : String) (contentType : Option String)
    (body : Body) :
    (method = Method.GET →
      graphql_opts urldecode receive_body method query contentType body
        = Except.mapError BadRequest.mk (urldecode query))
    ∧ (∀ err : String, method = Method.GET →
      urldecode query = Except.error err →
      graphql_opts urldecode receive_body method query contentType body
        = Except.error ⟨err⟩)
    ∧ (method ≠ Method.GET → ∀ query2 : String,
      graphql_opts urldecode receive_body method query2 contentType body
        = Except.mapError BadRequest.mk (receive_body contentType body))
    ∧ (∀ err : String, method ≠ Method.GET →
      receive_body contentType body = Except.error err →
      graphql_opts urldecode receive_body method query contentType body
        = Except.error ⟨err⟩) := by
  refine ⟨?_, ?_, ?_, ?_⟩
  · intro h
    simp [graphql_opts, h]
  · intro err h hdec
    simp [graphql_opts, h, hdec, Except.mapError]
  · intro h query2
    simp [graphql_opts, if_neg h]
  · intro err h hdec
    simp [graphql_opts, if_neg h, hdec, Except.mapError]

/-- C6 witness: concrete decoders show the GET branch decoding the query
string, a GET decode failure rejected as BadRequest, the POST branch
ignoring the query string, and a POST body failure rejected as
BadRequest. -/
theorem http_dispatch_binary_branch_witness :
    (graphql_opts w6decode w6body Method.GET "query=ok" none "ok"
      = Except.mapError BadRequest.mk (w6decode "query=ok"))
    ∧ (graphql_opts w6decode w6body Method.GET "broken" none "ok"
      = Except.error ⟨"bad query"⟩)
    ∧ (graphql_opts w6decode w6body Method.POST "broken" none "ok"
      = Except.mapError BadRequest.mk (w6body none "ok"))
    ∧ (graphql_opts w6decode w6body Method.POST "query=ok" none "broken"
      = Except.error ⟨"bad body"⟩) :=
  ⟨(http_dispatch_binary_branch w6decode w6body Method.GET "query=ok" none
      "ok").1 rfl,
    (http_dispatch_binary_branch w6decode w6body Method.GET "broken" none
      "ok").2.1 "bad query" rfl rfl,
    (http_dispatch_binary_branch w6decode w6body Method.POST "query=ok" none
      "ok").2.2.1 (by decide) "broken",
    (http_dispatch_binary_branch w6decode w6body Method.POST "query=ok" none
      "broken").2.2.2 "bad body" (by decide) rfl⟩

/-- C7: every reply of the WebSocket subscription filter carries the
Sec-WebSocket-Protocol header with value graphql-ws, whatever the upgrade
reply below it was. -/
theorem websocket_upgrade_has_subprotocol_header (upgradeReply : Reply) :
    getHeader (graphql_subscription_reply upgradeReply)
        "Sec-WebSocket-Protocol"
      = some "graphql-ws" := by
  simp [graphql_subscription_reply, with_header, insertHeader, getHeader]

/-- Every digit character is a valid header-value byte. -/
theorem validHeaderChar_digitChar (d : Nat) :
    validHeaderChar (digitChar d) = true := by
  match d with
  | 0 => rfl
  | 1 => rfl
  | 2 => rfl
  | 3 => rfl
  | 4 => rfl
  | 5 => rfl
  | 6 => rfl
  | 7 => rfl
  | 8 => rfl
  | n + 9 => rfl

/-- The rendered cache-control directive is a valid header value. -/
theorem validHeaderValue_maxAge (n : Nat) :
    validHeaderValue ("max-age=" ++ renderNat n) = true := by
  rw [validHeaderValue, String.data_append, List.all_append,
    Bool.and_eq_true]
  constructor
  · decide
  · rw [List.all_eq_true]
    intro c hc
    have hc2 : c ∈ (digitsRev n).reverse.map digitChar := hc
    obtain ⟨d, _, rfl⟩ := List.mem_map.mp hc2
    exact validHeaderChar_digitChar d

/-- C8: every reply built from a completed execution result carries
content-type application/json, and it carries a cache-control header
exactly when the result is free of errors and the merged cache-control
policy yields a value, in which case the header holds that value. -/
theorem cache_control_header_iff_error_free
    (serialize : ExecResponse → String) (resp : ExecResponse) :
    getHeader (into_response serialize resp) "content-type"
      = some "application/json"
    ∧ getHeader (into_response serialize resp) "cache-control"
      = (if respIsOk resp then cacheControlValue resp.cacheControl
          else none) := by
  cases hok : respIsOk resp with
  | false =>
    constructor
    · simp [into_response, add_cache_control, hok, with_header,
        insertHeader, getHeader]
    · simp [into_response, add_cache_control, hok, with_header,
        insertHeader, getHeader]
  | true =>
    cases hcc : cacheControlValue resp.cacheControl with
    | none =>
      constructor
      · simp [into_response, add_cache_control, hok, hcc, with_header,
          insertHeader, getHeader]
      · simp [into_response, add_cache_control, hok, hcc, with_header,
          insertHeader, getHeader]
    | some cc =>
      have hval : validHeaderValue cc = true := by
        by_cases hm : resp.cacheControl.maxAge > 0
        · rw [cacheControlValue, if_pos hm] at hcc
          cases hcc
          exact validHeaderValue_maxAge _
        · rw [cacheControlValue, if_neg hm] at hcc
          cases hcc
      constructor
      · simp [into_response, add_cache_control, hok, hcc, hval,
          with_header, insertHeader, getHeader]
      · simp [into_response, add_cache_control, hok, hcc, hval,
          with_header, insertHeader, getHeader]

/-- Unwrapping the error-free front of a frame list never panics and
produces exactly its values. -/
theorem mapUnwrap_takeWhile {E A : Type} :
    ∀ l : List (Except E A),
      mapUnwrap (l.takeWhile exceptIsOk) = some (okFront l) := by
  intro l
  induction l with
  | nil => rfl
  | cons m rest ih =>
    cases m with
    | ok a =>
      rw [List.takeWhile_cons,
        show exceptIsOk (Except.ok a : Except E A) = true from rfl,
        if_pos rfl]
      simp [mapUnwrap, unwrapResult, okFront, ih]
    | error e =>
      rw [List.takeWhile_cons,
        show exceptIsOk (Except.error e : Except E A) = false from rfl]
      simp [mapUnwrap, okFront]

/-- C10: the byte stream handed to the sub-protocol engine is exactly the
payloads of the longest error-free front of the inbound frames, and the
unwrap inside the pipeline never panics. -/
theorem inbound_pipeline_longest_ok_front {FrameErr Frame Bytes : Type}
    (intoBytes : Frame → Bytes) (msgs : List (Except FrameErr Frame)) :
    inboundPipeline intoBytes msgs
      = some ((okFront msgs).map intoBytes) := by
  rw [inboundPipeline, mapUnwrap_takeWhile]
  rfl

end AsyncGraphql
